import Mathlib

/-!
Verification of the summarization MCP server (threshold-gated
summarization with cache-backed retrieval).

The definitions below are a shallow embedding of the TypeScript sources:

* `src/services/summarization.ts` — `SummarizationService` (content cache,
  `getFullContent`, `maybeSummarize`);
* `src/models/prompts.ts` — the prompt constructor and the
  `OpenAICompatible` adapter;
* `src/models/anthropic.ts` — the fetch-based `AnthropicModel`;
* `src/models/claude.ts` — the `GeminiModel` variant;
* `src/models/index.ts` — the provider factory.

JavaScript `Map` objects are modelled as association lists with
`Map.set` / `Map.get` / `Map.delete` semantics; `Date.now()` timestamps are
passed explicitly as `Int` milliseconds; `fetch` is abstracted by an
explicit response value handed to each adapter; a thrown `Error` with a
message authored by the adapter code is `JsOutcome.thrown`, while a
propagated runtime exception (for example a `TypeError` from dereferencing
`undefined`) is `JsOutcome.crash`.
-/

/-- Options record from `src/types/models.ts` (`SummarizationOptions`):
optional `hint` and optional `output_format`, both free-form strings. -/
structure SummarizationOptions where
  hint : Option String
  output_format : Option String
  deriving DecidableEq, Repr

/-- One cache entry from `src/services/summarization.ts` (`CacheEntry`):
the original content and its insertion timestamp (milliseconds). -/
structure CacheEntry where
  content : String
  timestamp : Int
  deriving DecidableEq, Repr

/-- Lookup in the association-list model of a JavaScript `Map`
(`Map.get`): first binding for the key, if any. -/
def lookupEntry (m : List (String × CacheEntry)) (id : String) : Option CacheEntry :=
  match m with
  | [] => none
  | (k, v) :: rest => if k = id then some v else lookupEntry rest id

/-- `Map.set` semantics: replace the binding in place if the key is
present, otherwise append a new binding at the end. -/
def setEntry (m : List (String × CacheEntry)) (id : String) (e : CacheEntry) :
    List (String × CacheEntry) :=
  match m with
  | [] => [(id, e)]
  | (k, v) :: rest => if k = id then (k, e) :: rest else (k, v) :: setEntry rest id e

/-- `Map.delete` semantics: remove the binding for the key (keys of a
JavaScript `Map` are unique, so removing every binding coincides). -/
def deleteEntry (m : List (String × CacheEntry)) (id : String) :
    List (String × CacheEntry) :=
  m.filter (fun p => p.1 ≠ id)

/-- Mutable state of a `SummarizationService` instance
(`src/services/summarization.ts`): the content cache plus the two
configuration numbers fixed at construction. -/
structure ServiceState where
  contentCache : List (String × CacheEntry)
  charThreshold : Int
  cacheMaxAge : Int
  deriving DecidableEq, Repr

/-- Result record returned by `maybeSummarize`: `text`, optional `id`,
and the `isSummarized` flag. -/
structure SummarizationResult where
  text : String
  id : Option String
  isSummarized : Bool
  deriving DecidableEq, Repr

/-- One invocation of the model adapter, recording the arguments the
service actually passed to `model.summarize`. -/
structure ModelCall where
  content : String
  type : String
  options : Option SummarizationOptions
  deriving DecidableEq, Repr

/-- The model adapter as seen by the service: a function from the
arguments of `summarize` to either a summary or a thrown error message. -/
def AdapterFn : Type :=
  String → String → Option SummarizationOptions → Except String String

/-- `SummarizationService.getFullContent` (summarization.ts lines 70-81):
`Map.get`; a present entry with `now - timestamp > cacheMaxAge` is deleted
and reported absent, otherwise its content is returned. Returns the
result together with the post-call state. -/
def getFullContent (st : ServiceState) (now : Int) (id : String) :
    Option String × ServiceState :=
  match lookupEntry st.contentCache id with
  | none => (none, st)
  | some e =>
    if now - e.timestamp > st.cacheMaxAge then
      (none, { st with contentCache := deleteEntry st.contentCache id })
    else
      (some e.content, st)

/-- `SummarizationService.storeContent` (summarization.ts lines 58-65)
with the freshly generated `uuidv4()` identifier and `Date.now()` passed
explicitly: `Map.set` of the content with the current timestamp. -/
def storeContent (st : ServiceState) (now : Int) (id : String) (content : String) :
    ServiceState :=
  { st with contentCache := setEntry st.contentCache id { content := content, timestamp := now } }

/-- `SummarizationService.maybeSummarize` (summarization.ts lines 87-110).
Short content (`content.length <= charThreshold`) is returned verbatim
with `isSummarized := false` and no side effect. Otherwise the adapter is
invoked — line 103 reads `this.model.summarize(content, type)`, so the
third (options) argument is `none` regardless of the `options` parameter
— and on success the original content is stored under a fresh id. The
returned triple is (outcome, post-call state, list of adapter calls). -/
def maybeSummarize (mdl : AdapterFn) (st : ServiceState) (now : Int) (freshId : String)
    (content ty : String) (options : Option SummarizationOptions) :
    Except String SummarizationResult × ServiceState × List ModelCall :=
  if (content.length : Int) ≤ st.charThreshold then
    (Except.ok { text := content, id := none, isSummarized := false }, st, [])
  else
    match mdl content ty none with
    | Except.error e =>
        (Except.error e, st, [{ content := content, type := ty, options := none }])
    | Except.ok summary =>
        (Except.ok { text := summary, id := some freshId, isSummarized := true },
         storeContent st now freshId content,
         [{ content := content, type := ty, options := none }])

/-- Looking up the key just written by `setEntry` yields the new entry. -/
theorem lookupEntry_setEntry (m : List (String × CacheEntry)) (id : String) (e : CacheEntry) :
    lookupEntry (setEntry m id e) id = some e := by
  induction m with
  | nil => simp [setEntry, lookupEntry]
  | cons hd tl ih =>
    obtain ⟨k, v⟩ := hd
    by_cases hk : k = id
    · simp [setEntry, lookupEntry, hk]
    · simp [setEntry, lookupEntry, hk, ih]

/-- Looking up a key just removed by `deleteEntry` reports absence. -/
theorem lookupEntry_deleteEntry (m : List (String × CacheEntry)) (id : String) :
    lookupEntry (deleteEntry m id) id = none := by
  induction m with
  | nil => simp [deleteEntry, lookupEntry]
  | cons hd tl ih =>
    obtain ⟨k, v⟩ := hd
    by_cases hk : k = id
    · simpa [deleteEntry, hk] using ih
    · simpa [deleteEntry, lookupEntry, hk] using ih

/-- Concrete adapter used by witnesses: always returns the summary "S". -/
def mdlW : AdapterFn := fun _ _ _ => Except.ok "S"

/-- Concrete adapter used by witnesses: always fails with "boom". -/
def mdlFail : AdapterFn := fun _ _ _ => Except.error "boom"

/-- Concrete service state used by witnesses: empty cache, character
threshold 100, cache max age 1000 ms (the repository's own test setup). -/
def st0 : ServiceState :=
  { contentCache := [], charThreshold := 100, cacheMaxAge := 1000 }

/-- Concrete long content used by witnesses: 150 copies of the letter A
(the repository's own test input). -/
def content150 : String := String.mk (List.replicate 150 'A')

/-- C1: content no longer than `charThreshold` is returned verbatim with
`isSummarized := false` and no `id`, with zero adapter calls and the
cache (indeed the whole service state) unchanged. -/
theorem maybeSummarize_short_circuit (mdl : AdapterFn) (st : ServiceState) (now : Int)
    (freshId content ty : String) (options : Option SummarizationOptions)
    (h : (content.length : Int) ≤ st.charThreshold) :
    maybeSummarize mdl st now freshId content ty options
      = (Except.ok { text := content, id := none, isSummarized := false }, st, []) := by
  simp [maybeSummarize, h]

/-- C1 witness: 13-character content against threshold 100. -/
theorem maybeSummarize_short_circuit_witness :
    ((("Short content" : String).length : Int) ≤ st0.charThreshold)
    ∧ maybeSummarize mdlW st0 0 "id0" "Short content" "text" none
        = (Except.ok { text := "Short content", id := none, isSummarized := false }, st0, []) :=
  ⟨by decide, maybeSummarize_short_circuit mdlW st0 0 "id0" "Short content" "text" none (by decide)⟩

set_option maxRecDepth 16384

/-- C2: for content above the threshold, when the adapter succeeds the
result is the summary with `isSummarized := true` and the fresh id, and
`getFullContent` on that id at any query time within `cacheMaxAge` of the
store returns the original content. -/
theorem maybeSummarize_cache_roundtrip (mdl : AdapterFn) (st : ServiceState) (now : Int)
    (freshId content ty summary : String) (options : Option SummarizationOptions) (qt : Int)
    (hlen : st.charThreshold < (content.length : Int))
    (hok : mdl content ty none = Except.ok summary)
    (hq : qt - now ≤ st.cacheMaxAge) :
    (maybeSummarize mdl st now freshId content ty options).1
      = Except.ok { text := summary, id := some freshId, isSummarized := true }
    ∧ (getFullContent (maybeSummarize mdl st now freshId content ty options).2.1 qt freshId).1
      = some content := by
  have hnot : ¬ ((content.length : Int) ≤ st.charThreshold) := not_le.mpr hlen
  constructor
  · simp [maybeSummarize, hnot, hok]
  · simp [maybeSummarize, hnot, hok, getFullContent, storeContent,
      lookupEntry_setEntry, not_lt.mpr hq]

/-- C2 witness: 150 characters against threshold 100, stored at time 0,
queried at time 500 with max age 1000. -/
theorem maybeSummarize_cache_roundtrip_witness :
    (st0.charThreshold < (content150.length : Int)
      ∧ mdlW content150 "text" none = Except.ok "S"
      ∧ (500 : Int) - 0 ≤ st0.cacheMaxAge)
    ∧ ((maybeSummarize mdlW st0 0 "id0" content150 "text" none).1
        = Except.ok { text := "S", id := some "id0", isSummarized := true }
      ∧ (getFullContent (maybeSummarize mdlW st0 0 "id0" content150 "text" none).2.1 500 "id0").1
        = some content150) :=
  ⟨⟨by decide, rfl, by decide⟩,
   maybeSummarize_cache_roundtrip mdlW st0 0 "id0" content150 "text" "S" none 500
     (by decide) rfl (by decide)⟩

/-- C3: for content above the threshold, when the adapter fails the
failure propagates and the service state — in particular the content
cache — is exactly what it was before the call. -/
theorem maybeSummarize_no_leak_on_failure (mdl : AdapterFn) (st : ServiceState) (now : Int)
    (freshId content ty e : String) (options : Option SummarizationOptions)
    (hlen : st.charThreshold < (content.length : Int))
    (herr : mdl content ty none = Except.error e) :
    maybeSummarize mdl st now freshId content ty options
      = (Except.error e, st, [{ content := content, type := ty, options := none }]) := by
  simp [maybeSummarize, not_le.mpr hlen, herr]

/-- C3 witness: the failing adapter on the 150-character content leaves
the empty cache empty and propagates "boom". -/
theorem maybeSummarize_no_leak_on_failure_witness :
    (st0.charThreshold < (content150.length : Int)
      ∧ mdlFail content150 "text" none = Except.error "boom")
    ∧ maybeSummarize mdlFail st0 0 "id0" content150 "text" none
      = (Except.error "boom", st0, [{ content := content150, type := "text", options := none }]) :=
  ⟨⟨by decide, rfl⟩,
   maybeSummarize_no_leak_on_failure mdlFail st0 0 "id0" content150 "text" "boom" none
     (by decide) rfl⟩

/-- C4 counterexample: with `cacheMaxAge = 1000` and an entry stored at
time 0, a query at exactly time 1000 (that is, at `t0 + T`) still returns
the stored content, because line 76 of summarization.ts expires only when
`now - timestamp > maxAge`, a strict comparison. The claim asserts
absence at every query time at or beyond `t0 + T`. -/
theorem getFullContent_at_exact_maxAge :
    (getFullContent
        { contentCache := [("id1", { content := "data", timestamp := 0 })],
          charThreshold := 512, cacheMaxAge := 1000 } 1000 "id1").1
      = some "data" := by decide

/-- C4 amended: an entry stored at time `t0` in a cache with max age `T`
is returned (with the state untouched) at every query time `qt` with
`qt - t0 ≤ T`, and at every query time with `qt - t0 > T` the lookup
reports absence and deletes the entry as a side effect. -/
theorem getFullContent_expiry (st : ServiceState) (id c : String) (t0 qt : Int)
    (hl : lookupEntry st.contentCache id = some { content := c, timestamp := t0 }) :
    (qt - t0 ≤ st.cacheMaxAge → getFullContent st qt id = (some c, st))
    ∧ (st.cacheMaxAge < qt - t0 →
        getFullContent st qt id
          = (none, { st with contentCache := deleteEntry st.contentCache id })
        ∧ lookupEntry (getFullContent st qt id).2.contentCache id = none) := by
  constructor
  · intro h
    simp [getFullContent, hl, not_lt.mpr h]
  · intro h
    refine ⟨by simp [getFullContent, hl, h], ?_⟩
    simp [getFullContent, hl, h, lookupEntry_deleteEntry]

/-- C4 witness: max age 1000, entry stored at time 0; queried at time
1000 it is returned, queried at time 1001 it is absent and deleted. -/
theorem getFullContent_expiry_witness :
    (lookupEntry [("id1", { content := "data", timestamp := 0 : CacheEntry })] "id1"
        = some { content := "data", timestamp := 0 }
      ∧ (1000 : Int) - 0 ≤ (1000 : Int)
      ∧ (1000 : Int) < (1001 : Int) - 0)
    ∧ getFullContent
        { contentCache := [("id1", { content := "data", timestamp := 0 })],
          charThreshold := 512, cacheMaxAge := 1000 } 1000 "id1"
      = (some "data",
         { contentCache := [("id1", { content := "data", timestamp := 0 })],
           charThreshold := 512, cacheMaxAge := 1000 })
    ∧ getFullContent
        { contentCache := [("id1", { content := "data", timestamp := 0 })],
          charThreshold := 512, cacheMaxAge := 1000 } 1001 "id1"
      = (none,
         { contentCache := [], charThreshold := 512, cacheMaxAge := 1000 }) :=
  ⟨⟨by decide, by decide, by decide⟩,
   ((getFullContent_expiry
      { contentCache := [("id1", { content := "data", timestamp := 0 })],
        charThreshold := 512, cacheMaxAge := 1000 } "id1" "data" 0 1000 (by decide)).1
      (by decide)),
   ((getFullContent_expiry
      { contentCache := [("id1", { content := "data", timestamp := 0 })],
        charThreshold := 512, cacheMaxAge := 1000 } "id1" "data" 0 1001 (by decide)).2
      (by decide)).1⟩

/-- C5: the claim says the caller-supplied `hint` and `output_format`
reach the adapter, but line 103 of summarization.ts invokes
`this.model.summarize(content, type)` with no third argument. At the
repository's own test input (threshold 100, 150 characters) with
`hint := "security_analysis"` and `output_format := "json"`, the one
adapter call carries `options := none` rather than the supplied options:
the documented hint/output_format feature never reaches the prompt
constructor through this path. -/
theorem maybeSummarize_drops_options :
    (maybeSummarize mdlW st0 0 "id0" content150 "text"
        (some { hint := some "security_analysis", output_format := some "json" })).2.2
      = [{ content := content150, type := "text", options := none }]
    ∧ (maybeSummarize mdlW st0 0 "id0" content150 "text"
        (some { hint := some "security_analysis", output_format := some "json" })).2.2
      ≠ [{ content := content150, type := "text",
           options := some { hint := some "security_analysis", output_format := some "json" } }] := by
  constructor
  · decide
  · decide

/-- Provider tags of `src/models/prompts.ts` (`PromptFormat`). -/
inductive PromptFormat
  | anthropic
  | openai
  | gemini
  deriving DecidableEq, Repr

/-- One chat message of the OpenAI-style prompt (role plus content). -/
structure OpenAIMessage where
  role : String
  content : String
  deriving DecidableEq, Repr

/-- One message of the Gemini-style prompt: a role together with the
texts of its parts array. -/
structure GeminiMessage where
  role : String
  parts : List String
  deriving DecidableEq, Repr

/-- Tagged union of the three provider prompt shapes (`ModelPrompt`). -/
inductive ModelPrompt
  | anthropicP (prompt : String)
  | openaiP (messages : List OpenAIMessage)
  | geminiP (messages : List GeminiMessage)
  deriving DecidableEq, Repr

/-- The fixed hint enumeration recognized by `getHintInstructions`. -/
def hintKeys : List String :=
  ["security_analysis", "api_surface", "error_handling", "dependencies", "type_definitions"]

/-- `getHintInstructions` (prompts.ts lines 52-64): empty result for an
absent or falsy (empty-string) hint, a fixed clause for each of the five
recognized hints, and the record-lookup fallback of the empty string for
every other value. -/
def getHintInstructions (hint : Option String) : String :=
  match hint with
  | none => ""
  | some h =>
    if h = "" then ""
    else if h = "security_analysis" then
      "Focus on security-critical aspects including authentication, authorization, crypto operations, data validation, and error handling patterns."
    else if h = "api_surface" then
      "Focus on public API interfaces, documenting parameters/return types, noting deprecation warnings and potential breaking changes."
    else if h = "error_handling" then
      "Focus on error handling patterns, exception flows, and recovery mechanisms."
    else if h = "dependencies" then
      "Focus on import/export relationships, external dependencies, and potential circular dependencies."
    else if h = "type_definitions" then
      "Focus on type structures, relationships, and hierarchies."
    else ""

/-- `getFormatInstructions` (prompts.ts lines 69-79): empty result for an
absent, falsy, or "text" format, a fixed clause for json, markdown and
outline, and the empty-string fallback otherwise. -/
def getFormatInstructions (output_format : Option String) : String :=
  match output_format with
  | none => ""
  | some f =>
    if f = "" ∨ f = "text" then ""
    else if f = "json" then
      "Provide the summary in JSON format with a \"summary\" field and a \"metadata\" object containing focus_areas, key_components, and relationships."
    else if f = "markdown" then
      "Format the summary in Markdown with clear sections, a table of contents, and preserved code blocks where relevant."
    else if f = "outline" then
      "Present the summary as a hierarchical outline with relationship indicators and importance markers."
    else ""

/-- `getBaseSummarizationInstructions` (prompts.ts lines 84-86). -/
def getBaseSummarizationInstructions (ty : String) : String :=
  "Summarize the following " ++ ty ++ " in a clear, concise way that would be useful for an AI agent. Focus on the most important information and maintain technical accuracy."

/-- `constructFullInstructions` (prompts.ts lines 91-101): the non-empty
clauses among base, hint and format instructions joined by blank lines
(the JavaScript `filter(Boolean).join` pair). -/
def constructFullInstructions (ty : String) (options : Option SummarizationOptions) : String :=
  String.intercalate "\n\n"
    (([getBaseSummarizationInstructions ty,
       getHintInstructions (options.bind (·.hint)),
       getFormatInstructions (options.bind (·.output_format))]).filter (fun s => s ≠ ""))

/-- The "You specialize in ... analysis." clause added to the OpenAI
system message for any truthy (non-empty) hint, recognized or not
(prompts.ts lines 124-126). -/
def openaiHintClause (options : Option SummarizationOptions) : String :=
  match options.bind (·.hint) with
  | none => ""
  | some h => if h = "" then "" else " You specialize in " ++ h ++ " analysis."

/-- `createAnthropicPrompt` (prompts.ts lines 106-112). -/
def createAnthropicPrompt (content ty : String) (options : Option SummarizationOptions) :
    ModelPrompt :=
  ModelPrompt.anthropicP
    (constructFullInstructions ty options ++ "\n\n" ++ content ++ "\n\nSummary:")

/-- `createOpenAIPrompt` (prompts.ts lines 117-134): a system message
naming the content type (plus the hint clause for a truthy hint) and a
user message carrying the full instructions and the content. -/
def createOpenAIPrompt (content ty : String) (options : Option SummarizationOptions) :
    ModelPrompt :=
  ModelPrompt.openaiP
    [{ role := "system",
       content := "You are a helpful assistant that summarizes " ++ ty ++ " content."
         ++ openaiHintClause options },
     { role := "user",
       content := constructFullInstructions ty options ++ "\n\n" ++ content }]

/-- `createGeminiPrompt` (prompts.ts lines 139-152). -/
def createGeminiPrompt (content ty : String) (options : Option SummarizationOptions) :
    ModelPrompt :=
  ModelPrompt.geminiP
    [{ role := "user",
       parts := [constructFullInstructions ty options ++ "\n\n" ++ content] }]

/-- `constructPrompt` (prompts.ts lines 157-173); the `default: throw`
branch is unreachable over the closed `PromptFormat` union. -/
def constructPrompt (format : PromptFormat) (content ty : String)
    (options : Option SummarizationOptions) : ModelPrompt :=
  match format with
  | PromptFormat.anthropic => createAnthropicPrompt content ty options
  | PromptFormat.openai => createOpenAIPrompt content ty options
  | PromptFormat.gemini => createGeminiPrompt content ty options

/-- An unrecognized hint contributes no hint instruction. -/
theorem getHintInstructions_unrecognized (h : String) (hh : h ∉ hintKeys) :
    getHintInstructions (some h) = "" := by
  simp only [hintKeys, List.mem_cons, List.not_mem_nil, or_false] at hh
  push_neg at hh
  obtain ⟨h1, h2, h3, h4, h5⟩ := hh
  simp [getHintInstructions, h1, h2, h3, h4, h5]

/-- C7 counterexample: for the openai format, the hint "bogus" — outside
the fixed enumeration — changes the output relative to the no-hint case,
because prompts.ts lines 124-126 splice any truthy hint into the system
message ("You specialize in bogus analysis."). -/
theorem constructPrompt_openai_leaks_unrecognized_hint :
    constructPrompt PromptFormat.openai "c" "t"
        (some { hint := some "bogus", output_format := none })
      ≠ constructPrompt PromptFormat.openai "c" "t" none := by decide

/-- C7 amended: an unrecognized hint leaves the anthropic and gemini
outputs — and the joined instruction text used by every format —
identical to the no-hint case; only the openai system message may differ.
For every format, `output_format` equal to "text" behaves exactly like an
absent `output_format`, and empty options behave like no options. -/
theorem constructPrompt_unrecognized_values (c ty h : String) (ho ho2 : Option String)
    (f : PromptFormat) (hh : h ∉ hintKeys) :
    (constructPrompt PromptFormat.anthropic c ty
        (some { hint := some h, output_format := ho })
      = constructPrompt PromptFormat.anthropic c ty
        (some { hint := none, output_format := ho }))
    ∧ (constructPrompt PromptFormat.gemini c ty
        (some { hint := some h, output_format := ho })
      = constructPrompt PromptFormat.gemini c ty
        (some { hint := none, output_format := ho }))
    ∧ (constructFullInstructions ty (some { hint := some h, output_format := ho })
      = constructFullInstructions ty (some { hint := none, output_format := ho }))
    ∧ (constructPrompt f c ty (some { hint := ho2, output_format := some "text" })
      = constructPrompt f c ty (some { hint := ho2, output_format := none }))
    ∧ (constructPrompt f c ty (some { hint := none, output_format := none })
      = constructPrompt f c ty none) := by
  have hh0 : getHintInstructions (some h) = "" := getHintInstructions_unrecognized h hh
  have hnone : getHintInstructions none = "" := rfl
  have hins : constructFullInstructions ty (some { hint := some h, output_format := ho })
      = constructFullInstructions ty (some { hint := none, output_format := ho }) := by
    simp [constructFullInstructions, hh0, hnone]
  refine ⟨?_, ?_, hins, ?_, ?_⟩
  · simp [constructPrompt, createAnthropicPrompt, hins]
  · simp [constructPrompt, createGeminiPrompt, hins]
  · have hfmt : getFormatInstructions (some "text") = getFormatInstructions none := by
      simp [getFormatInstructions]
    cases f <;>
      simp [constructPrompt, createAnthropicPrompt, createOpenAIPrompt, createGeminiPrompt,
        constructFullInstructions, openaiHintClause, hfmt]
  · cases f <;>
      simp [constructPrompt, createAnthropicPrompt, createOpenAIPrompt, createGeminiPrompt,
        constructFullInstructions, openaiHintClause, getHintInstructions, getFormatInstructions]

/-- C7 witness: the amended statement at hint "bogus", output format
slots none and some "json", and the openai format. -/
theorem constructPrompt_unrecognized_values_witness :
    ("bogus" ∉ hintKeys)
    ∧ ((constructPrompt PromptFormat.anthropic "c" "t"
          (some { hint := some "bogus", output_format := none })
        = constructPrompt PromptFormat.anthropic "c" "t"
          (some { hint := none, output_format := none }))
      ∧ (constructPrompt PromptFormat.gemini "c" "t"
          (some { hint := some "bogus", output_format := none })
        = constructPrompt PromptFormat.gemini "c" "t"
          (some { hint := none, output_format := none }))
      ∧ (constructFullInstructions "t" (some { hint := some "bogus", output_format := none })
        = constructFullInstructions "t" (some { hint := none, output_format := none }))
      ∧ (constructPrompt PromptFormat.openai "c" "t"
          (some { hint := some "json", output_format := some "text" })
        = constructPrompt PromptFormat.openai "c" "t"
          (some { hint := some "json", output_format := none }))
      ∧ (constructPrompt PromptFormat.openai "c" "t"
          (some { hint := none, output_format := none })
        = constructPrompt PromptFormat.openai "c" "t" none)) :=
  ⟨by decide,
   constructPrompt_unrecognized_values "c" "t" "bogus" none (some "json")
     PromptFormat.openai (by decide)⟩

/-- `ModelConfig` from `src/types/models.ts`: required API key, optional
max tokens, optional model identifier, optional base URL override. -/
structure ModelConfig where
  apiKey : String
  maxTokens : Option Int
  model : Option String
  baseUrl : Option String
  deriving DecidableEq, Repr

/-- Configuration an adapter stores after a successful initialization:
resolved model name, resolved max tokens, API key, and — for the variants
that spread the whole incoming config — the base URL field it carried. -/
structure StoredConfig where
  model : String
  maxTokens : Int
  apiKey : String
  baseUrl : Option String
  deriving DecidableEq, Repr

/-- Outcome of one JavaScript call: a value, an `Error` thrown by the
adapter code itself with the given message, or a propagated runtime
exception (for example a `TypeError` from dereferencing `undefined`, or
an unhandled `fetch` rejection). -/
inductive JsOutcome (α : Type)
  | ok (a : α)
  | thrown (message : String)
  | crash
  deriving DecidableEq, Repr

/-- Result of `fetch` as seen by an adapter: either a response value of
the provider-specific shape or a transport-level failure. -/
inductive FetchResult (ρ : Type)
  | success (resp : ρ)
  | networkFailure (message : String)
  deriving DecidableEq, Repr

/-- JavaScript `String.prototype.trim`: strip whitespace from both ends
(written over the character list so that it evaluates by reduction). -/
def jsTrim (s : String) : String :=
  String.mk (((s.data.dropWhile Char.isWhitespace).reverse.dropWhile Char.isWhitespace).reverse)

/-- Shared helper mirroring the initialization bodies: JavaScript
`config.model || defaultModel` (empty string is falsy, so it also falls
back to the default). -/
def resolveModel (m : Option String) (defaultModel : String) : String :=
  match m with
  | none => defaultModel
  | some s => if s = "" then defaultModel else s

/-- `AnthropicModel.initialize` (anthropic.ts lines 14-37): requires a
non-empty API key, defaults the model to claude-3-5-sonnet-20241022 and
max tokens to 1024, rejects whitespace-only model names and non-positive
max tokens, then stores model, max tokens and API key (dropping any base
URL from the incoming config). -/
def anthropicInit (cfg : ModelConfig) : Except String StoredConfig :=
  if cfg.apiKey = "" then
    Except.error "API key is required for Anthropic model"
  else
    let mdl := resolveModel cfg.model "claude-3-5-sonnet-20241022"
    let maxTokens := cfg.maxTokens.getD 1024
    if jsTrim mdl = "" then Except.error "Invalid model name"
    else if maxTokens ≤ 0 then Except.error "Invalid max tokens value"
    else Except.ok { model := mdl, maxTokens := maxTokens, apiKey := cfg.apiKey, baseUrl := none }

/-- One item of the Anthropic response content array. -/
structure AnthropicContentItem where
  text : String
  type : String
  deriving DecidableEq, Repr

/-- Parsed body of a successful Anthropic response: either the JSON parse
rejected, or it produced a value whose `content` field is an array
(`some` items) or is absent/not an array (`none`). -/
inductive AnthropicBody
  | parseFailure (message : String)
  | parsed (content : Option (List AnthropicContentItem))
  deriving DecidableEq, Repr

/-- An Anthropic HTTP response: status flag and code, the provider error
message extracted from a non-success body when parseable, and the parsed
success body. -/
structure AnthropicHttp where
  ok : Bool
  status : Nat
  errorMessage : Option String
  body : AnthropicBody
  deriving DecidableEq, Repr

/-- The `catch` wrapper at anthropic.ts lines 96-101: every thrown
`Error` is rethrown with the provider prefix (a propagated non-`Error`
value would pass the `instanceof` test only for `Error`s; all exceptions
in this method are `Error`s, so `crash` does not arise here). -/
def wrapAnthropic (o : JsOutcome String) : JsOutcome String :=
  match o with
  | JsOutcome.ok s => JsOutcome.ok s
  | JsOutcome.thrown m => JsOutcome.thrown ("Anthropic summarization failed: " ++ m)
  | JsOutcome.crash => JsOutcome.crash

/-- `AnthropicModel.summarize` (anthropic.ts lines 39-102). Outside the
try block an uninitialized model throws the bare "not initialized"
message; inside it, a transport failure becomes "Network error: ...", a
non-success response throws the extracted provider message (or the
generic HTTP-status message), a body that fails to parse throws "Invalid
JSON response: ...", and a body whose content is not an array, is empty,
or whose first item has a falsy text throws the unexpected-format
message; all of these are then wrapped with the provider prefix. -/
def anthropicSummarize (config : Option StoredConfig) (content ty : String)
    (fr : FetchResult AnthropicHttp) : JsOutcome String :=
  match config with
  | none => JsOutcome.thrown "Anthropic model not initialized"
  | some _ =>
    wrapAnthropic
      (match fr with
       | FetchResult.networkFailure m => JsOutcome.thrown ("Network error: " ++ m)
       | FetchResult.success resp =>
         if ¬ resp.ok then
           JsOutcome.thrown
             (match resp.errorMessage with
              | some m => m
              | none => "HTTP error " ++ toString resp.status)
         else
           match resp.body with
           | AnthropicBody.parseFailure m =>
               JsOutcome.thrown ("Invalid JSON response: " ++ m)
           | AnthropicBody.parsed none =>
               JsOutcome.thrown "Unexpected response format from Anthropic API"
           | AnthropicBody.parsed (some items) =>
             match items with
             | [] => JsOutcome.thrown "Unexpected response format from Anthropic API"
             | item :: _ =>
               if item.text = "" then
                 JsOutcome.thrown "Unexpected response format from Anthropic API"
               else JsOutcome.ok item.text)

/-- `AnthropicModel.cleanup` (anthropic.ts lines 104-106): discards the
stored configuration. -/
def anthropicCleanup (config : Option StoredConfig) : Option StoredConfig :=
  none

/-- State of an `OpenAICompatible` instance (prompts.ts lines 252-254):
the optional stored config and the `baseUrl` field, which the class
declares with the fixed initial value and never reassigns. -/
structure OpenAICompatibleState where
  config : Option StoredConfig
  baseUrl : String
  deriving DecidableEq, Repr

/-- A freshly constructed `OpenAICompatible` object. -/
def openaiCompatibleNew : OpenAICompatibleState :=
  { config := none, baseUrl := "https://api.openai.com/v1" }

/-- `OpenAICompatible.initialize` (prompts.ts lines 256-279): requires a
non-empty API key, defaults the model to gpt-4o-mini and max tokens to
1024, validates them, and stores the spread of the incoming config (so
any `baseUrl` it carried lands in `config`) — while `this.baseUrl`, the
field the request URL is built from, is left untouched. -/
def openaiCompatibleInit (st : OpenAICompatibleState) (cfg : ModelConfig) :
    Except String OpenAICompatibleState :=
  if cfg.apiKey = "" then
    Except.error "API key is required for OpenAI compatible models"
  else
    let mdl := resolveModel cfg.model "gpt-4o-mini"
    let maxTokens := cfg.maxTokens.getD 1024
    if jsTrim mdl = "" then Except.error "Invalid model name"
    else if maxTokens ≤ 0 then Except.error "Invalid max tokens value"
    else
      let stored : StoredConfig :=
        { model := mdl, maxTokens := maxTokens, apiKey := cfg.apiKey, baseUrl := cfg.baseUrl }
      Except.ok { st with config := some stored }

/-- The URL `OpenAICompatible.summarize` issues its POST to
(prompts.ts line 293). -/
def openaiCompatibleRequestUrl (st : OpenAICompatibleState) : String :=
  st.baseUrl ++ "/chat/completions"

/-- An OpenAI-style HTTP response: status flag and code, and the
`choices` array (message contents), `none` when the field is absent. -/
structure OpenAIHttp where
  ok : Bool
  status : Nat
  choices : Option (List String)
  deriving DecidableEq, Repr

/-- `OpenAICompatible.summarize` (prompts.ts lines 281-316): throws
"Model not initialized" when no config is stored; has no try/catch, so a
transport failure propagates as an untyped rejection; a non-success
response throws the status message; a missing or empty `choices` array
throws "No summary was returned from the API"; otherwise the first
choice's message content is returned. -/
def openaiCompatibleSummarize (st : OpenAICompatibleState) (content ty : String)
    (options : Option SummarizationOptions) (fr : FetchResult OpenAIHttp) :
    JsOutcome String :=
  match st.config with
  | none => JsOutcome.thrown "Model not initialized"
  | some _ =>
    match fr with
    | FetchResult.networkFailure _ => JsOutcome.crash
    | FetchResult.success resp =>
      if ¬ resp.ok then
        JsOutcome.thrown ("API request failed with status " ++ toString resp.status)
      else
        match resp.choices with
        | some (c :: _) => JsOutcome.ok c
        | some [] => JsOutcome.thrown "No summary was returned from the API"
        | none => JsOutcome.thrown "No summary was returned from the API"

/-- `OpenAICompatible.cleanup` (prompts.ts lines 318-320): the body is
the single comment "No cleanup needed for OpenAI compatible models" —
the state is left exactly as it was. -/
def openaiCompatibleCleanup (st : OpenAICompatibleState) : OpenAICompatibleState :=
  st

/-- `GeminiModel.initialize` (claude.ts lines 129-152): requires a
non-empty API key, defaults the model to gemini-1.5-flash and max tokens
to 1024, validates them, and stores the spread of the incoming config. -/
def geminiInit (cfg : ModelConfig) : Except String StoredConfig :=
  if cfg.apiKey = "" then
    Except.error "API key is required for Gemini model"
  else
    let mdl := resolveModel cfg.model "gemini-1.5-flash"
    let maxTokens := cfg.maxTokens.getD 1024
    if jsTrim mdl = "" then Except.error "Invalid model name"
    else if maxTokens ≤ 0 then Except.error "Invalid max tokens value"
    else Except.ok { model := mdl, maxTokens := maxTokens, apiKey := cfg.apiKey, baseUrl := cfg.baseUrl }

/-- A Gemini HTTP response: status flag and text, and the `candidates`
array, each candidate reduced to the texts of its `content.parts`;
`none` when the field is absent from the payload. -/
structure GeminiHttp where
  ok : Bool
  statusText : String
  candidates : Option (List (List String))
  deriving DecidableEq, Repr

/-- `GeminiModel.summarize` (claude.ts lines 154-185): throws "Model not
initialized" when no config is stored; has no try/catch, so a transport
failure propagates untyped; a non-success response throws "Failed to
fetch summary: ..."; on success the code returns
`data.candidates[0].content.parts[0].text` with no shape check, so a
missing or empty `candidates` array, or a first candidate with no parts,
dereferences `undefined` and raises an untyped `TypeError` (`crash`). -/
def geminiSummarize (config : Option StoredConfig) (content ty : String)
    (options : Option SummarizationOptions) (fr : FetchResult GeminiHttp) :
    JsOutcome String :=
  match config with
  | none => JsOutcome.thrown "Model not initialized"
  | some _ =>
    match fr with
    | FetchResult.networkFailure _ => JsOutcome.crash
    | FetchResult.success resp =>
      if ¬ resp.ok then
        JsOutcome.thrown ("Failed to fetch summary: " ++ resp.statusText)
      else
        match resp.candidates with
        | none => JsOutcome.crash
        | some [] => JsOutcome.crash
        | some (parts :: _) =>
          match parts with
          | [] => JsOutcome.crash
          | t :: _ => JsOutcome.ok t

/-- `GeminiModel.cleanup` (claude.ts lines 187-189): the body is the
single comment "No cleanup needed for Gemini model" — the stored
configuration is left in place. -/
def geminiCleanup (config : Option StoredConfig) : Option StoredConfig :=
  config

/-- The adapter variant selected by the provider factory. -/
inductive ModelChoice
  | anthropicM
  | openaiM
  | openaiCompatibleM
  | geminiM
  deriving DecidableEq, Repr

/-- The provider factory `initializeModel` from `src/models/index.ts`:
a switch over the four recognized provider selectors, whose default
branch throws a descriptive "Unsupported provider" error. -/
def initModel (provider : String) : Except String ModelChoice :=
  if provider = "ANTHROPIC" then Except.ok ModelChoice.anthropicM
  else if provider = "OPENAI" then Except.ok ModelChoice.openaiM
  else if provider = "OPENAI-COMPATIBLE" then Except.ok ModelChoice.openaiCompatibleM
  else if provider = "GOOGLE" then Except.ok ModelChoice.geminiM
  else Except.error ("Unsupported provider: " ++ provider)

/-- Concrete minimal model configuration used in adapter scenarios. -/
def cfgK : ModelConfig :=
  { apiKey := "k", maxTokens := none, model := none, baseUrl := none }

/-- C6 counterexample: initialize an `OpenAICompatible` adapter, call
`cleanup()`, then call `summarize` — it still performs the request and
returns the summary instead of failing with the "Model not initialized"
error, because `OpenAICompatible.cleanup` (prompts.ts lines 318-320) is
a no-op that does not discard the configuration. -/
theorem openaiCompatible_summarize_after_cleanup :
    (match openaiCompatibleInit openaiCompatibleNew cfgK with
     | Except.ok st =>
        openaiCompatibleSummarize (openaiCompatibleCleanup st) "c" "t" none
          (FetchResult.success { ok := true, status := 200, choices := some ["S"] })
     | Except.error _ => JsOutcome.crash)
      = JsOutcome.ok "S" := by decide

/-- C6 amended: only the Anthropic adapter's `cleanup` discards its
configuration, after which `summarize` fails with the same "Anthropic
model not initialized" error as in the Uninitialized state; the
OpenAI-compatible and Gemini adapters' `cleanup` methods are no-ops that
leave the stored configuration in place, so subsequent `summarize` calls
behave exactly as before cleanup. -/
theorem cleanup_behaviour :
    (∀ (cfg : Option StoredConfig) (content ty : String) (fr : FetchResult AnthropicHttp),
        anthropicSummarize (anthropicCleanup cfg) content ty fr
          = JsOutcome.thrown "Anthropic model not initialized")
    ∧ (∀ (content ty : String) (fr : FetchResult AnthropicHttp),
        anthropicSummarize none content ty fr
          = JsOutcome.thrown "Anthropic model not initialized")
    ∧ (∀ st : OpenAICompatibleState, openaiCompatibleCleanup st = st)
    ∧ (∀ cfg : Option StoredConfig, geminiCleanup cfg = cfg) :=
  ⟨fun _ _ _ _ => rfl, fun _ _ _ => rfl, fun _ => rfl, fun _ => rfl⟩

/-- Concrete model configuration carrying a base URL override. -/
def cfgOverride : ModelConfig :=
  { apiKey := "k", maxTokens := none, model := none,
    baseUrl := some "https://example.com/v1" }

/-- C8: initialization with a `baseUrl` override of
"https://example.com/v1" stores the override inside the config object,
yet the URL `summarize` POSTs to is still the public default
"https://api.openai.com/v1/chat/completions" — `this.baseUrl`, which the
request is built from, is never assigned from the configuration
(prompts.ts lines 254, 274-278 and 293). -/
theorem openaiCompatible_ignores_baseUrl_override :
    (match openaiCompatibleInit openaiCompatibleNew cfgOverride with
     | Except.ok st => openaiCompatibleRequestUrl st
     | Except.error _ => "")
      = "https://api.openai.com/v1/chat/completions"
    ∧ (match openaiCompatibleInit openaiCompatibleNew cfgOverride with
       | Except.ok st => openaiCompatibleRequestUrl st
       | Except.error _ => "")
      ≠ "https://example.com/v1/chat/completions"
    ∧ (match openaiCompatibleInit openaiCompatibleNew cfgOverride with
       | Except.ok st => st.config
       | Except.error _ => none)
      = some { model := "gpt-4o-mini", maxTokens := 1024, apiKey := "k",
               baseUrl := some "https://example.com/v1" } := by
  refine ⟨by decide, by decide, by decide⟩

/-- C9 counterexample: an initialized Gemini adapter receiving a
successful response whose `candidates` array is empty dereferences
`undefined` (claude.ts line 184 reads
`data.candidates[0].content.parts[0].text` with no check) and raises an
untyped runtime exception, not an "unexpected response format" error
naming the provider. -/
theorem geminiSummarize_crashes_on_empty_candidates :
    (match geminiInit cfgK with
     | Except.ok cfg =>
        geminiSummarize (some cfg) "c" "t" none
          (FetchResult.success { ok := true, statusText := "OK", candidates := some [] })
     | Except.error _ => JsOutcome.ok "unreachable")
      = JsOutcome.crash := by decide

/-- C9 amended: on a successful response with a malformed payload, the
Anthropic adapter throws the provider-named "Unexpected response format"
error (missing or empty content array, or a first item with falsy text);
the OpenAI-compatible adapter throws the typed "No summary was returned
from the API" error (which names neither the provider nor a format
problem); and the Gemini adapter performs no shape check, so a missing
or empty `candidates` array, or a first candidate with no parts, raises
an untyped runtime exception. -/
theorem adapter_malformed_response_behaviour :
    (∀ (cfg : StoredConfig) (content ty : String) (s : Nat) (em : Option String),
        anthropicSummarize (some cfg) content ty
            (FetchResult.success
              { ok := true, status := s, errorMessage := em,
                body := AnthropicBody.parsed none })
          = JsOutcome.thrown
              "Anthropic summarization failed: Unexpected response format from Anthropic API")
    ∧ (∀ (cfg : StoredConfig) (content ty : String) (s : Nat) (em : Option String),
        anthropicSummarize (some cfg) content ty
            (FetchResult.success
              { ok := true, status := s, errorMessage := em,
                body := AnthropicBody.parsed (some []) })
          = JsOutcome.thrown
              "Anthropic summarization failed: Unexpected response format from Anthropic API")
    ∧ (∀ (cfg : StoredConfig) (content ty tt : String) (s : Nat) (em : Option String)
          (items : List AnthropicContentItem),
        anthropicSummarize (some cfg) content ty
            (FetchResult.success
              { ok := true, status := s, errorMessage := em,
                body := AnthropicBody.parsed (some ({ text := "", type := tt } :: items)) })
          = JsOutcome.thrown
              "Anthropic summarization failed: Unexpected response format from Anthropic API")
    ∧ (∀ (cfg : StoredConfig) (b content ty : String)
          (options : Option SummarizationOptions) (s : Nat),
        openaiCompatibleSummarize { config := some cfg, baseUrl := b } content ty options
            (FetchResult.success { ok := true, status := s, choices := some [] })
          = JsOutcome.thrown "No summary was returned from the API")
    ∧ (∀ (cfg : StoredConfig) (b content ty : String)
          (options : Option SummarizationOptions) (s : Nat),
        openaiCompatibleSummarize { config := some cfg, baseUrl := b } content ty options
            (FetchResult.success { ok := true, status := s, choices := none })
          = JsOutcome.thrown "No summary was returned from the API")
    ∧ (∀ (cfg : StoredConfig) (content ty stx : String)
          (options : Option SummarizationOptions),
        geminiSummarize (some cfg) content ty options
            (FetchResult.success { ok := true, statusText := stx, candidates := some [] })
          = JsOutcome.crash)
    ∧ (∀ (cfg : StoredConfig) (content ty stx : String)
          (options : Option SummarizationOptions),
        geminiSummarize (some cfg) content ty options
            (FetchResult.success { ok := true, statusText := stx, candidates := none })
          = JsOutcome.crash)
    ∧ (∀ (cfg : StoredConfig) (content ty stx : String)
          (options : Option SummarizationOptions) (rest : List (List String)),
        geminiSummarize (some cfg) content ty options
            (FetchResult.success
              { ok := true, statusText := stx, candidates := some ([] :: rest) })
          = JsOutcome.crash) :=
  ⟨fun _ _ _ _ _ => rfl, fun _ _ _ _ _ => rfl, fun _ _ _ _ _ _ _ => rfl,
   fun _ _ _ _ _ _ => rfl, fun _ _ _ _ _ _ => rfl,
   fun _ _ _ _ _ => rfl, fun _ _ _ _ _ => rfl, fun _ _ _ _ _ _ => rfl⟩

/-- C10: every provider selector outside the fixed enumeration makes the
factory fail with the descriptive "Unsupported provider" error instead
of returning any adapter. -/
theorem initModel_unsupported_provider (provider : String)
    (h1 : provider ≠ "ANTHROPIC") (h2 : provider ≠ "OPENAI")
    (h3 : provider ≠ "OPENAI-COMPATIBLE") (h4 : provider ≠ "GOOGLE") :
    initModel provider = Except.error ("Unsupported provider: " ++ provider) := by
  simp [initModel, h1, h2, h3, h4]

/-- C10 witness: the selector "AZURE". -/
theorem initModel_unsupported_provider_witness :
    (("AZURE" : String) ≠ "ANTHROPIC" ∧ ("AZURE" : String) ≠ "OPENAI"
      ∧ ("AZURE" : String) ≠ "OPENAI-COMPATIBLE" ∧ ("AZURE" : String) ≠ "GOOGLE")
    ∧ initModel "AZURE" = Except.error ("Unsupported provider: " ++ "AZURE") :=
  ⟨⟨by decide, by decide, by decide, by decide⟩,
   initModel_unsupported_provider "AZURE" (by decide) (by decide) (by decide) (by decide)⟩
